import Mathlib

set_option maxHeartbeats 1000000

/-!
Verification of the whisper_transcribe plugin against its specification.

The development embeds the Python sources shallowly:

* `src/services/runpod_client.py` — the cloud-client response text
  extraction (`_extract_text_from_response`).
* `src/plugins/whisper_transcribe/stash_helper_fallback.py` — the
  fallback Stash helper: task-name detection, `Setting` resolution, the
  GraphQL wrapper `_graphql`, `find_scene` and `get_all_scenes`.
* `src/plugins/whisper_transcribe/whisper_transcribe.py` — the
  transcription client `transcribe_video`, the scene sub-procedures and
  the module-level dispatcher.

External collaborators (HTTP servers, the filesystem, ffmpeg) are modelled
as oracles supplied through `World` style structures, and observable
actions are collected in effect traces.
-/

/-- JSON values as produced by the Python json module: null, booleans,
integers, strings, arrays and objects (ordered association lists). -/
inductive Json where
  | null
  | bool (b : Bool)
  | num (n : Int)
  | str (s : String)
  | arr (elems : List Json)
  | obj (fields : List (String × Json))

/-- First binding of a key in an object field list (Python dict lookup;
dict keys are unique, so the first binding is the binding). -/
def lookupFs : List (String × Json) → String → Option Json
  | [], _ => none
  | (k, v) :: fs, name => if k == name then some v else lookupFs fs name

/-- Python truthiness of a JSON value. -/
def truthy : Json → Bool
  | Json.null => false
  | Json.bool b => b
  | Json.num n => n != 0
  | Json.str s => s != ""
  | Json.arr xs => !xs.isEmpty
  | Json.obj fs => !fs.isEmpty

/-- Whether a JSON value is an object (Python `isinstance(x, dict)`). -/
def Json.isDict : Json → Bool
  | Json.obj _ => true
  | _ => false

/-- Whether a JSON value is null (Python `x is None`, with JSON null
parsed to Python None). -/
def Json.isNull : Json → Bool
  | Json.null => true
  | _ => false

/-- Python `==` between a JSON value and a string literal: true exactly
for an equal string. -/
def jeqStr : Json → String → Bool
  | Json.str s, t => s == t
  | _, _ => false

/-- Rendering of a JSON value inside a log message (Python f-string
interpolation, kept shallow for containers). -/
def Json.render : Json → String
  | Json.null => "None"
  | Json.bool true => "True"
  | Json.bool false => "False"
  | Json.num n => toString n
  | Json.str s => s
  | Json.arr _ => "<list>"
  | Json.obj _ => "<dict>"

/-- Whether the string `s` occurs as a (nested) string value of a JSON
value, down to the given depth. Depth 3 covers the top level of a
response object and the values inside its `output` sub-object. -/
def containsStrDepth : Nat → Json → String → Bool
  | 0, _, _ => false
  | _ + 1, Json.str t, s => t == s
  | d + 1, Json.arr xs, s => xs.any (fun j => containsStrDepth d j s)
  | d + 1, Json.obj fs, s => fs.any (fun kv => containsStrDepth d kv.2 s)
  | _ + 1, _, _ => false

/-! ## Cloud inference client: `_extract_text_from_response` -/

/-- Field names tried, in order, by the cloud response text extraction. -/
def keyOrder : List String := ["text", "transcript", "transcription"]

/-- First key from `ks` whose value in the object is a string — the
`for k in ("text", "transcript", "transcription")` loops of
`_extract_text_from_response` (a present non-string value is skipped). -/
def firstStr (fs : List (String × Json)) : List String → Option String
  | [] => none
  | k :: ks =>
    match lookupFs fs k with
    | some (Json.str s) => some s
    | _ => firstStr fs ks

/-- Embedding of `_extract_text_from_response` (src/services/runpod_client.py,
lines 13-27): None and non-dict input give none; otherwise `output` as a
direct string wins, else a dict under `output` is tried with the
text/transcript/transcription order, else the same order is tried at the
top level. -/
def extractTextFromResponse : Json → Option String
  | Json.obj fs =>
    match lookupFs fs "output" with
    | some (Json.str s) => some s
    | some (Json.obj os) =>
      match firstStr os keyOrder with
      | some s => some s
      | none => firstStr fs keyOrder
    | _ => firstStr fs keyOrder
  | _ => none

/-- The extraction order exactly as the specification words it: the
direct top level first with the text/transcript/transcription order, then
the nested `output` field (a direct string, or an object tried with the
same order). Written from the spec for comparison with the code. -/
def extractTextSpecOrder : Json → Option String
  | Json.obj fs =>
    match firstStr fs keyOrder with
    | some s => some s
    | none =>
      match lookupFs fs "output" with
      | some (Json.str s) => some s
      | some (Json.obj os) => firstStr os keyOrder
      | _ => none
  | _ => none

/-- The string yielded by the `output` field alone: `output` itself when
it is a string, else the first of text/transcript/transcription inside an
`output` object. -/
def outputPart (fs : List (String × Json)) : Option String :=
  match lookupFs fs "output" with
  | some (Json.str s) => some s
  | some (Json.obj os) => firstStr os keyOrder
  | _ => none

/-- The amended extraction order: the nested `output` field first, then
the top level, each with the fixed field-name order. -/
def extractTextAmendedSpec : Json → Option String
  | Json.obj fs =>
    match outputPart fs with
    | some s => some s
    | none => firstStr fs keyOrder
  | _ => none

/-! ## Transcription client: `transcribe_video` -/

/-- Outcome of the external ffmpeg invocation: success, tool missing
(Python FileNotFoundError from subprocess.run), or a non-zero exit with
captured stderr. -/
inductive FfOutcome where
  | ok
  | notFound
  | fail (stderr : String)

/-- Oracle for the collaborators of one `transcribe_video` call: the
reachability probe, the temporary file name handed out by
tempfile.NamedTemporaryFile, the ffmpeg outcome, the upload outcome
(response text, or the message of the raised error), and whether the SRT
write succeeds. -/
structure TvWorld where
  reachable : Bool
  tmpName : String
  ffmpeg : FfOutcome
  upload : Except String String
  writeOk : Bool

/-- Observable actions of `transcribe_video`, in order. -/
inductive TvEffect where
  | probe (url : String)
  | tmpCreate (p : String)
  | ffmpegRun (src dst : String)
  | upload (url : String) (p : String)
  | remove (p : String)
  | writeFile (p : String)

/-- Errors surfaced by `transcribe_video`: the FileNotFoundError for a
missing video, or a RuntimeError with a message. -/
inductive TvError where
  | fileNotFound (msg : String)
  | runtimeError (msg : String)

/-- Index just past the last occurrence of `c` in `cs` (0 when absent). -/
def lastIndexAfter (cs : List Char) (c : Char) : Nat :=
  match cs with
  | [] => 0
  | x :: xs =>
    let r := lastIndexAfter xs c
    if r == 0 then (if x == c then 1 else 0) else r + 1

/-- Root part of os.path.splitext: the path without the extension that
starts at the last dot of the final component. -/
def splitextRoot (p : String) : String :=
  let cs := p.toList
  let dot := lastIndexAfter cs '.'
  let slash := lastIndexAfter cs '/'
  if dot == 0 || dot ≤ slash + 1 then p
  else String.mk (cs.take (dot - 1))

/-- Embedding of `transcribe_video`
(src/plugins/whisper_transcribe/whisper_transcribe.py, lines 207-258)
as a function of the oracle and the set of existing files. Returns the
result, the resulting file set and the effect trace. The `finally`
block's removal of the temporary WAV file runs on every path that
reaches its creation, before the SRT write. -/
def transcribeVideo (w : TvWorld) (fs : List String) (videoPath : String)
    (_translate : Bool) (serverUrl : String) :
    Except TvError Unit × List String × List TvEffect :=
  if videoPath ∈ fs then
    if w.reachable then
      let fs1 := w.tmpName :: fs
      let effs0 := [TvEffect.probe serverUrl, TvEffect.tmpCreate w.tmpName]
      match w.ffmpeg with
      | FfOutcome.notFound =>
        (Except.error (TvError.runtimeError "\x27ffmpeg\x27 not found. Please ensure it is installed and in PATH."),
         fs1.erase w.tmpName,
         effs0 ++ [TvEffect.ffmpegRun videoPath w.tmpName, TvEffect.remove w.tmpName])
      | FfOutcome.fail stderr =>
        (Except.error (TvError.runtimeError ("ffmpeg failed to extract audio: " ++ stderr)),
         fs1.erase w.tmpName,
         effs0 ++ [TvEffect.ffmpegRun videoPath w.tmpName, TvEffect.remove w.tmpName])
      | FfOutcome.ok =>
        match w.upload with
        | Except.error msg =>
          (Except.error (TvError.runtimeError msg),
           fs1.erase w.tmpName,
           effs0 ++ [TvEffect.ffmpegRun videoPath w.tmpName,
                     TvEffect.upload serverUrl w.tmpName, TvEffect.remove w.tmpName])
        | Except.ok _responseText =>
          let fs2 := fs1.erase w.tmpName
          let srtPath := splitextRoot videoPath ++ ".srt"
          let effs1 := effs0 ++ [TvEffect.ffmpegRun videoPath w.tmpName,
                                 TvEffect.upload serverUrl w.tmpName,
                                 TvEffect.remove w.tmpName, TvEffect.writeFile srtPath]
          if w.writeOk then (Except.ok (), srtPath :: fs2, effs1)
          else
            (Except.error (TvError.runtimeError ("Failed to write SRT file \x27" ++ srtPath ++ "\x27")),
             fs2, effs1)
    else
      (Except.error (TvError.runtimeError
        ("Cannot reach whisper server at " ++ serverUrl ++
         ". Configure the \x27Whisper Server URL\x27 plugin setting or set WHISPER_SERVER_URL.")),
       fs, [TvEffect.probe serverUrl])
  else
    (Except.error (TvError.fileNotFound ("Video file not found at \x27" ++ videoPath ++ "\x27")),
     fs, [])

/-! ## Fallback helper: task-name detection and `Setting` resolution -/

/-- Embedding of the task-name detection in `StashPluginHelper.__init__`
(stash_helper_fallback.py, lines 37-40): `task.get("name") or
args.get("mode") or ""`, with non-dict `task`/`args` values replaced by
empty dicts by the isinstance guards. -/
def pluginTaskName (inp : List (String × Json)) : Json :=
  let args := match (lookupFs inp "args").getD (Json.obj []) with
    | Json.obj a => a
    | _ => []
  let task := match (lookupFs inp "task").getD (Json.obj []) with
    | Json.obj t => t
    | _ => []
  let nm := (lookupFs task "name").getD Json.null
  if truthy nm then nm
  else
    let md := (lookupFs args "mode").getD Json.null
    if truthy md then md else Json.str ""

/-- One pass of the list-of-pairs settings shape: the first item that is
a dict whose "key" equals the name yields `item.get("value", default)`. -/
def settingListFind (items : List Json) (name : String) (dflt : Json) : Option Json :=
  match items with
  | [] => none
  | Json.obj ifs :: rest =>
    if jeqStr ((lookupFs ifs "key").getD Json.null) name then
      some ((lookupFs ifs "value").getD dflt)
    else settingListFind rest name dflt
  | _ :: rest => settingListFind rest name dflt

/-- Steps 2-3 of `Setting`: the `args` mapping, then the constructor
defaults. -/
def settingArgs (inp ctor : List (String × Json)) (name : String) (dflt : Json) : Json :=
  match (lookupFs inp "args").getD (Json.obj []) with
  | Json.obj afs =>
    match lookupFs afs name with
    | some v => v
    | none => (lookupFs ctor name).getD dflt
  | _ => (lookupFs ctor name).getD dflt

/-- The `pluginSettings` alternative source of `Setting`, falling through
to `args` and the constructor defaults. -/
def settingAlt (inp ctor : List (String × Json)) (name : String) (dflt : Json) : Json :=
  match (lookupFs inp "pluginSettings").getD (Json.obj []) with
  | Json.obj afs =>
    match lookupFs afs name with
    | some v => v
    | none => settingArgs inp ctor name dflt
  | Json.arr items =>
    match settingListFind items name dflt with
    | some r => r
    | none => settingArgs inp ctor name dflt
  | _ => settingArgs inp ctor name dflt

/-- Embedding of `StashPluginHelper.Setting`
(stash_helper_fallback.py, lines 43-75). Checked in order: the UI
`settings` mapping (dict shape, or list of key/value pairs), the
`pluginSettings` mapping (same two shapes), the `args` mapping, and the
constructor-supplied defaults, finally the call-site default. -/
def Setting (inp ctor : List (String × Json)) (name : String) (dflt : Json) : Json :=
  match (lookupFs inp "settings").getD (Json.obj []) with
  | Json.obj sfs =>
    match lookupFs sfs name with
    | some v => v
    | none => settingAlt inp ctor name dflt
  | Json.arr items =>
    match settingListFind items name dflt with
    | some r => r
    | none => settingAlt inp ctor name dflt
  | _ => settingAlt inp ctor name dflt

/-- The module-level default settings dict of whisper_transcribe.py
(lines 263-271). -/
def moduleSettings : List (String × Json) :=
  [("translateToEnglish", Json.bool false),
   ("zzdebugTracing", Json.bool false),
   ("zzdryRun", Json.bool false)]

/-- Python `str.strip()`: surrounding whitespace removed, written over
the character list so it evaluates by kernel reduction. -/
def pyStrip (s : String) : String :=
  String.mk (((s.toList.dropWhile Char.isWhitespace).reverse.dropWhile
    Char.isWhitespace).reverse)

/-- Steps 5-6 of `_resolve_server_url`. -/
def resolveServerUrlStep5 (env : Option String) : String :=
  match env with
  | some s => if pyStrip s != "" then pyStrip s else "http://127.0.0.1:9191/inference"
  | none => "http://127.0.0.1:9191/inference"

/-- Steps 4-6 of `_resolve_server_url`: the GraphQL settings fetch, the
WHISPER_SERVER_URL environment variable, and the built-in default. -/
def resolveServerUrlStep4 (fetched env : Option String) : String :=
  match fetched with
  | some s => if pyStrip s != "" then pyStrip s else resolveServerUrlStep5 env
  | none => resolveServerUrlStep5 env

/-- Steps 3-6 of `_resolve_server_url`: direct extraction from the raw
payload (`settings` then `pluginSettings`, dict or list shape), then the
GraphQL fetch, the environment variable, and the built-in default. -/
def resolveServerUrlStep3 (inp : List (String × Json)) (fetched env : Option String) : String :=
  let rawFromSettings := match (lookupFs inp "settings").getD Json.null with
    | Json.obj sfs => (lookupFs sfs "serverUrl").getD Json.null
    | Json.arr items =>
      match settingListFind items "serverUrl" Json.null with
      | some r => r
      | none => Json.null
    | _ => Json.null
  let rawUrl := if truthy rawFromSettings then rawFromSettings
    else match (lookupFs inp "pluginSettings").getD Json.null with
    | Json.obj sfs => (lookupFs sfs "serverUrl").getD Json.null
    | Json.arr items =>
      match settingListFind items "serverUrl" Json.null with
      | some r => r
      | none => Json.null
    | _ => Json.null
  match rawUrl with
  | Json.str s => if pyStrip s != "" then pyStrip s else resolveServerUrlStep4 fetched env
  | _ => resolveServerUrlStep4 fetched env

/-- Steps 2-6 of `_resolve_server_url`: the helper `Setting` lookup, the
direct raw-payload extraction, the GraphQL fetch, the environment
variable, and the built-in default. -/
def resolveServerUrlStep2 (inp : List (String × Json)) (fetched env : Option String) : String :=
  let uiUrl := Setting inp moduleSettings "serverUrl" Json.null
  match uiUrl with
  | Json.str s => if pyStrip s != "" then pyStrip s else resolveServerUrlStep3 inp fetched env
  | _ => resolveServerUrlStep3 inp fetched env

/-- Embedding of `_resolve_server_url`
(whisper_transcribe.py, lines 288-350). `fetched` stands for the result
of the best-effort GraphQL settings fetch and `env` for the
WHISPER_SERVER_URL environment variable. A truthy non-dict `args` value
would raise at import time before this point, and is modelled as the
falsy-args branch that yields no explicit argument. -/
def resolveServerUrl (inp : List (String × Json)) (fetched env : Option String) : String :=
  let argUrl := match (lookupFs inp "args").getD (Json.obj []) with
    | Json.obj afs => (lookupFs afs "serverUrl").getD Json.null
    | _ => Json.null
  match argUrl with
  | Json.str s =>
    if pyStrip s != "" then pyStrip s else resolveServerUrlStep2 inp fetched env
  | _ => resolveServerUrlStep2 inp fetched env

/-! ## Python-level operations used by the dispatcher -/

/-- Python exceptions that the embedded fragments can raise. -/
inductive Exn where
  | attrError (m : String)
  | keyError (m : String)
  | typeError (m : String)
  | valueError (m : String)
  | indexError (m : String)
  | other (m : String)

/-- Rendering of an exception inside an error log line. -/
def renderExn : Exn → String
  | Exn.attrError m => "AttributeError: " ++ m
  | Exn.keyError m => "KeyError: " ++ m
  | Exn.typeError m => "TypeError: " ++ m
  | Exn.valueError m => "ValueError: " ++ m
  | Exn.indexError m => "IndexError: " ++ m
  | Exn.other m => m

/-- Python `x.get(k, d)`: the value (or the default) for a dict, an
AttributeError for anything else. -/
def pyGetD : Json → String → Json → Except Exn Json
  | Json.obj fs, k, d => Except.ok ((lookupFs fs k).getD d)
  | _, _, _ => Except.error (Exn.attrError "get")

/-- Python subscription `x[k]`: dict by string key (KeyError when
absent), list by integer index (negative indices from the end,
IndexError out of range), string by integer index, TypeError otherwise. -/
def pySubscr : Json → Json → Except Exn Json
  | Json.obj fs, Json.str k =>
    match lookupFs fs k with
    | some v => Except.ok v
    | none => Except.error (Exn.keyError k)
  | Json.arr xs, Json.num n =>
    let i := if n < 0 then n + xs.length else n
    if h : 0 ≤ i ∧ i.toNat < xs.length then Except.ok (xs.get ⟨i.toNat, h.2⟩)
    else Except.error (Exn.indexError "list index out of range")
  | Json.str s, Json.num n =>
    let i := if n < 0 then n + s.length else n
    if h : 0 ≤ i ∧ i.toNat < s.data.length then
      Except.ok (Json.str (String.mk [s.data.get ⟨i.toNat, h.2⟩]))
    else Except.error (Exn.indexError "string index out of range")
  | _, _ => Except.error (Exn.typeError "unsubscriptable")

/-- Python `str(x)` as used by `find_scene` on a scene id. -/
def pyStr (j : Json) : String := j.render

/-- Python `int(x)`: integers pass through, booleans become 0/1, strings
are parsed (surrounding whitespace and a sign allowed), everything else
raises. -/
def pyInt : Json → Except Exn Int
  | Json.num n => Except.ok n
  | Json.bool b => Except.ok (if b then 1 else 0)
  | Json.str s =>
    let t := pyStrip s
    let t2 := if t.startsWith "+" then t.drop 1 else t
    match t2.toInt? with
    | some n => Except.ok n
    | none => Except.error (Exn.valueError ("invalid literal for int: " ++ s))
  | _ => Except.error (Exn.typeError "int() argument")

/-- Python `<` between the JSON values compared by the scene-selection
key function: numbers and strings compare within their kind (booleans as
0/1), everything else raises TypeError. -/
def pyLt : Json → Json → Except Exn Bool
  | Json.str a, Json.str b => Except.ok (decide (a.toList < b.toList))
  | Json.num a, Json.num b => Except.ok (decide (a < b))
  | Json.num a, Json.bool b => Except.ok (decide (a < (if b then 1 else 0)))
  | Json.bool a, Json.num b => Except.ok (decide ((if a then (1 : Int) else 0) < b))
  | Json.bool a, Json.bool b => Except.ok (decide ((if a then (1 : Int) else 0) < (if b then 1 else 0)))
  | _, _ => Except.error (Exn.typeError "unorderable types")

/-! ## Effects, oracle and the GraphQL helpers -/

/-- Observable actions of the dispatcher and its sub-procedures. -/
inductive Effect where
  | log (lvl : Char) (msg : String)
  | gqlPost (query : String) (vars : Json)
  | isfileCheck (p : Json)
  | transcribeCall (p : Json)

/-- Outcome of one GraphQL HTTP exchange, as seen by `_graphql`:
an HTTP error response, a transport failure, a body that is not JSON,
any other raised error, an empty body, or a parsed JSON body. -/
inductive GqlResult where
  | httpError (code : Int) (body : String)
  | urlError (msg : String)
  | badJson
  | otherError (msg : String)
  | emptyBody
  | ok (j : Json)

/-- Oracle for the dispatcher's collaborators: the GraphQL server (keyed
by query and variables), the filesystem probe behind os.path.isfile, and
the `transcribe_video` call (`some msg` when it raises, `none` when it
returns). -/
structure World where
  gql : String → Json → GqlResult
  isfile : Json → Bool
  transcribe : Json → Option String

/-- A computation that logs effects and may raise. -/
def Eff (α : Type) : Type := List Effect × Except Exn α

/-- Sequencing of effectful computations: effects accumulate, errors
short-circuit. -/
def eseq {α β : Type} (x : Eff α) (f : α → Eff β) : Eff β :=
  match x with
  | (t, Except.ok a) =>
    match f a with
    | (t2, r) => (t ++ t2, r)
  | (t, Except.error e) => (t, Except.error e)

/-- Lifting of a pure Python expression into an effectful computation. -/
def elift {α : Type} (x : Except Exn α) : Eff α := ([], x)

/-- Whether a parsed GraphQL body is a dict with a truthy `errors` field
(`isinstance(j, dict) and j.get("errors")`). -/
def isErrorsDict : Json → Bool
  | Json.obj fs => truthy ((lookupFs fs "errors").getD Json.null)
  | _ => false

/-- Embedding of `StashPluginHelper._graphql`
(stash_helper_fallback.py, lines 126-155): posts the query and returns
the parsed body, or None after logging on an empty body, a non-JSON
body, an HTTP or transport error, any other raised error, or a body
carrying GraphQL errors. It never raises. -/
def graphqlCall (w : World) (q : String) (vars : Json) : List Effect × Option Json :=
  let post := Effect.gqlPost q vars
  match w.gql q vars with
  | GqlResult.emptyBody => ([post, Effect.log 'W' "Empty GraphQL response"], none)
  | GqlResult.badJson => ([post, Effect.log 'E' "Unexpected error calling GraphQL: invalid JSON body"], none)
  | GqlResult.httpError code body =>
    ([post, Effect.log 'E' ("HTTP error calling GraphQL: " ++ toString code ++ " body= " ++ body)], none)
  | GqlResult.urlError m => ([post, Effect.log 'E' ("URL error calling GraphQL: " ++ m)], none)
  | GqlResult.otherError m => ([post, Effect.log 'E' ("Unexpected error calling GraphQL: " ++ m)], none)
  | GqlResult.ok j =>
    if isErrorsDict j then ([post, Effect.log 'E' "GraphQL errors:"], none)
    else ([post], some j)

/-- The query issued by `get_all_scenes`. -/
def allScenesQuery : String := "query \x7b allScenes \x7b id updated_at \x7d \x7d"

/-- Embedding of `get_all_scenes` (stash_helper_fallback.py, lines
169-177): any `_graphql` failure, and any falsy response, yield the
empty-list shape; a truthy non-dict response makes `resp.get` raise. -/
def getAllScenes (w : World) : Eff Json :=
  match graphqlCall w allScenesQuery (Json.obj []) with
  | (t, none) => (t, Except.ok (Json.obj [("allScenes", Json.arr [])]))
  | (t, some j) =>
    if !truthy j then (t, Except.ok (Json.obj [("allScenes", Json.arr [])]))
    else
      match pyGetD j "data" (Json.obj []) with
      | Except.error e => (t, Except.error e)
      | Except.ok data =>
        let scenes := match data with
          | Json.obj dfs => (lookupFs dfs "allScenes").getD Json.null
          | _ => Json.arr []
        let scenesL := match scenes with
          | Json.arr xs => Json.arr xs
          | _ => Json.arr []
        (t, Except.ok (Json.obj [("allScenes", scenesL)]))

/-- Fragment brace stripping in `find_scene` (lines 158-161). -/
def stripBraces (s : String) : String :=
  let f := pyStrip s
  if f.startsWith "\x7b" && f.endsWith "\x7d" then ((f.drop 1).dropRight 1) else f

/-- The query built by `find_scene` for a field fragment. -/
def findSceneQuery (frag : String) : String :=
  "query($id: ID!) \x7b findScene(id: $id) \x7b " ++ stripBraces frag ++ " \x7d \x7d"

/-- Embedding of `find_scene` (stash_helper_fallback.py, lines 157-167):
a falsy `_graphql` result gives None (null); otherwise the
`data.findScene` field, with None for a non-dict `data`; a truthy
non-dict response makes `resp.get` raise. -/
def findScene (w : World) (sceneId : Json) (fragment : String) : Eff Json :=
  match graphqlCall w (findSceneQuery fragment) (Json.obj [("id", Json.str (pyStr sceneId))]) with
  | (t, none) => (t, Except.ok Json.null)
  | (t, some j) =>
    if !truthy j then (t, Except.ok Json.null)
    else
      match pyGetD j "data" (Json.obj []) with
      | Except.error e => (t, Except.error e)
      | Except.ok data =>
        match data with
        | Json.obj dfs => (t, Except.ok ((lookupFs dfs "findScene").getD Json.null))
        | _ => (t, Except.ok Json.null)

/-! ## Scene sub-procedures and the dispatcher -/

/-- The field fragment requested by `transcribe_scene`. -/
def sceneFragment : String := "\n            id title files \x7b id path \x7d\n        "

/-- Error line of the `transcribe_scene` exception handler (the appended
Python traceback text is omitted). -/
def sceneExnMsg (e : Exn) : String := "Exception in transcribe_scene: " ++ renderExn e

/-- Error line of the `transcribe_last_scene` exception handler. -/
def lastSceneExnMsg (e : Exn) : String := "Exception in transcribe_last_scene: " ++ renderExn e

/-- Error line of the `transcribe_scene_task` exception handler. -/
def sceneTaskExnMsg (e : Exn) : String := "Exception in transcribe_scene_task: " ++ renderExn e

/-- Error line of the module-level dispatch exception handler. -/
def mainExnMsg (e : Exn) : String := "Exception while running plugin: " ++ renderExn e

/-- Body of `transcribe_scene` (whisper_transcribe.py, lines 385-412),
before its exception handler: fetch the scene, bail out with a log when
it is missing, has no files, or its first file path is not a file; then
either log the dry-run intent or call `transcribe_video`, and log
completion. -/
def transcribeSceneBody (w : World) (su : String) (tj dj : Json) (sceneId : Json) : Eff Unit :=
  eseq (findScene w sceneId sceneFragment) fun scene =>
  if !truthy scene then
    ([Effect.log 'E' ("Scene " ++ sceneId.render ++ " not found.")], Except.ok ())
  else
    eseq (elift (pyGetD scene "files" Json.null)) fun files =>
    if !truthy files then
      ([Effect.log 'W' ("Scene " ++ sceneId.render ++ " has no associated files.")], Except.ok ())
    else
      eseq (elift (pySubscr scene (Json.str "files"))) fun filesV =>
      eseq (elift (pySubscr filesV (Json.num 0))) fun f0 =>
      eseq (elift (pySubscr f0 (Json.str "path"))) fun videoPath =>
      eseq ([Effect.isfileCheck videoPath], Except.ok ()) fun _ =>
      if !w.isfile videoPath then
        ([Effect.log 'W' ("Video file does not exist: " ++ videoPath.render)], Except.ok ())
      else
        eseq (if truthy dj then
            ([Effect.log 'I' ("Dry-run: would transcribe \x27" ++ videoPath.render ++
              "\x27 (translate=" ++ tj.render ++ ", server_url=" ++ su ++ ")")], Except.ok ())
          else
            ([Effect.transcribeCall videoPath],
             match w.transcribe videoPath with
             | some m => Except.error (Exn.other m)
             | none => Except.ok ())) fun _ =>
        ([Effect.log 'I' ("Transcription completed for scene " ++ sceneId.render ++
          " (file: " ++ videoPath.render ++ ")")], Except.ok ())

/-- `transcribe_scene` (lines 383-415): the body with its catch-all
handler, which logs the exception and returns normally. -/
def transcribeScene (w : World) (su : String) (tj dj : Json) (sceneId : Json) : List Effect :=
  match transcribeSceneBody w su tj dj sceneId with
  | (t, Except.ok _) => t
  | (t, Except.error e) => t ++ [Effect.log 'E' (sceneExnMsg e)]

/-- The key function of the scene selection: `s["updated_at"]`. -/
def updKey (s : Json) : Except Exn Json := pySubscr s (Json.str "updated_at")

/-- The iteration of Python `max(..., key=...)`: keep the current
element unless a later element has a strictly greater key, so the first
maximal element wins. -/
def pyMaxGo (cur curKey : Json) : List Json → Except Exn Json
  | [] => Except.ok cur
  | s :: rest =>
    match updKey s with
    | Except.error e => Except.error e
    | Except.ok k =>
      match pyLt curKey k with
      | Except.error e => Except.error e
      | Except.ok true => pyMaxGo s k rest
      | Except.ok false => pyMaxGo cur curKey rest

/-- Python `max(all_scenes, key=lambda s: s["updated_at"])`. -/
def pyMaxBy (xs : List Json) : Except Exn Json :=
  match xs with
  | [] => Except.error (Exn.valueError "max() arg is an empty sequence")
  | s :: rest =>
    match updKey s with
    | Except.error e => Except.error e
    | Except.ok k => pyMaxGo s k rest

/-- Body of `transcribe_last_scene` (lines 422-434): list all scenes,
select the one with the maximal `updated_at`, and delegate to
`transcribe_scene` on its id. -/
def transcribeLastSceneBody (w : World) (su : String) (tj dj : Json) : Eff Unit :=
  eseq (getAllScenes w) fun gas =>
  eseq (elift (pySubscr gas (Json.str "allScenes"))) fun allScenes =>
  if !truthy allScenes then ([Effect.log 'E' "No scenes found."], Except.ok ())
  else
    match allScenes with
    | Json.arr xs =>
      eseq (elift (pyMaxBy xs)) fun latest =>
      eseq (elift (pyGetD latest "id" Json.null)) fun sceneId =>
      if sceneId.isNull then ([Effect.log 'E' "Latest scene has no ID."], Except.ok ())
      else (transcribeScene w su tj dj sceneId, Except.ok ())
    | _ => elift (Except.error (Exn.typeError "max() arg is not iterable"))

/-- `transcribe_last_scene` (lines 420-437) with its catch-all handler. -/
def transcribeLastScene (w : World) (su : String) (tj dj : Json) : List Effect :=
  match transcribeLastSceneBody w su tj dj with
  | (t, Except.ok _) => t
  | (t, Except.error e) => t ++ [Effect.log 'E' (lastSceneExnMsg e)]

/-- Body of `transcribe_scene_task` (lines 444-450): read
`args.scene_id`, coerce it to an integer and delegate. -/
def transcribeSceneTaskBody (w : World) (inp : List (String × Json))
    (su : String) (tj dj : Json) : Eff Unit :=
  eseq (elift (pyGetD ((lookupFs inp "args").getD (Json.obj [])) "scene_id" Json.null)) fun sid =>
  if sid.isNull then
    ([Effect.log 'E' "No scene_id supplied to transcribe_scene_task"], Except.ok ())
  else
    eseq (elift ((pyInt sid).map Json.num)) fun sidN =>
    (transcribeScene w su tj dj sidN, Except.ok ())

/-- `transcribe_scene_task` (lines 439-453) with its catch-all handler. -/
def transcribeSceneTask (w : World) (inp : List (String × Json))
    (su : String) (tj dj : Json) : List Effect :=
  match transcribeSceneTaskBody w inp su tj dj with
  | (t, Except.ok _) => t
  | (t, Except.error e) => t ++ [Effect.log 'E' (sceneTaskExnMsg e)]

/-- The third dispatch condition (line 465):
`stash.JSON_INPUT and stash.JSON_INPUT.get("args", {}).get("mode") ==
"transcribe_scene_task"`. A falsy input short-circuits; a truthy
non-dict `args` value makes the inner `.get` raise AttributeError. -/
def modeCond (inp : List (String × Json)) : Except Exn Bool :=
  if inp.isEmpty then Except.ok false
  else
    match (lookupFs inp "args").getD (Json.obj []) with
    | Json.obj afs =>
      Except.ok (jeqStr ((lookupFs afs "mode").getD Json.null) "transcribe_scene_task")
    | _ => Except.error (Exn.attrError "get")

/-- The hook detection at import time (lines 366-378): the flag and the
captured scene id, with the `except Exception: pass` handler keeping
whatever has been assigned when a step raises. -/
def hookState (inp : List (String × Json)) : Bool × Option Int :=
  match (lookupFs inp "args").getD (Json.obj []) with
  | Json.obj afs =>
    match (lookupFs afs "hookContext").getD Json.null with
    | Json.null => (false, none)
    | Json.obj hc =>
      if ((lookupFs hc "input").getD Json.null).isNull then (false, none)
      else
        match (lookupFs hc "id").getD Json.null with
        | Json.null => (true, none)
        | v =>
          match pyInt v with
          | Except.ok n => (true, some n)
          | Except.error _ => (true, none)
    | _ => (false, none)
  | _ => (false, none)

/-- The trace line logged when no dispatch key matches (line 476). -/
def noTaskMsg (inp : List (String × Json)) : String :=
  "No task specified (PLUGIN_TASK_NAME=" ++ (pluginTaskName inp).render ++ "). Nothing to do."

/-- The module-level dispatch try-block (whisper_transcribe.py, lines
458-476), before its exception handler: the four mutually exclusive
dispatch cases, else the no-task trace line. -/
def dispatchTry (w : World) (inp : List (String × Json))
    (su : String) (tj dj : Json) : Eff Unit :=
  let ptn := pluginTaskName inp
  if jeqStr ptn "transcribe_last_scene" then
    (Effect.log 'T' ("PLUGIN_TASK_NAME=" ++ ptn.render) :: transcribeLastScene w su tj dj,
     Except.ok ())
  else if jeqStr ptn "transcribe_scene_task" then
    (Effect.log 'T' ("PLUGIN_TASK_NAME=" ++ ptn.render) :: transcribeSceneTask w inp su tj dj,
     Except.ok ())
  else
    match modeCond inp with
    | Except.error e => ([], Except.error e)
    | Except.ok true =>
      (Effect.log 'T' "Dispatch via args.mode=transcribe_scene_task" ::
        transcribeSceneTask w inp su tj dj, Except.ok ())
    | Except.ok false =>
      match hookState inp with
      | (true, some i) =>
        (Effect.log 'T' "Triggered by Scene.Update.Post hook" ::
          transcribeScene w su tj dj (Json.num i), Except.ok ())
      | (true, none) =>
        (Effect.log 'T' "Triggered by Scene.Update.Post hook" ::
          transcribeLastScene w su tj dj, Except.ok ())
      | (false, _) => ([Effect.log 'T' (noTaskMsg inp)], Except.ok ())

/-- The module-level dispatch (lines 458-479): the try-block with its
catch-all handler, which logs the exception and falls through. -/
def dispatchMain (w : World) (inp : List (String × Json))
    (su : String) (tj dj : Json) : List Effect :=
  match dispatchTry w inp su tj dj with
  | (t, Except.ok _) => t
  | (t, Except.error e) => t ++ [Effect.log 'E' (mainExnMsg e)]

/-- Whether a GraphQL exchange outcome is one of the failure modes that
`_graphql` converts to None: an HTTP error, a transport error, a
non-JSON body, another raised error, an empty body, or a parsed body
carrying GraphQL errors. -/
def gqlFailure : GqlResult → Bool
  | GqlResult.ok j => isErrorsDict j
  | _ => true

/-! ## Concrete fixtures for witnesses and counterexamples -/

/-- A response carrying both a nested `output.text` and a top-level
`text`, separating the two candidate extraction orders. -/
def c1Input : Json :=
  Json.obj [("output", Json.obj [("text", Json.str "a")]), ("text", Json.str "b")]

/-- A task descriptor in which the same name is set both in the UI
settings and in `args`. -/
def c2Input : List (String × Json) :=
  [("settings", Json.obj [("x", Json.str "ui")]),
   ("args", Json.obj [("x", Json.str "argsv")])]

/-- Constructor defaults carrying the same name again. -/
def c2Ctor : List (String × Json) := [("x", Json.str "ctor")]

/-- A dispatcher oracle whose GraphQL server is down. -/
def w0 : World :=
  { gql := fun _ _ => GqlResult.urlError "connection refused",
    isfile := fun _ => false,
    transcribe := fun _ => none }

/-- A task descriptor with a truthy non-dict `args` value: it matches no
dispatch key, and the mode check raises on it. -/
def c4Input : List (String × Json) := [("args", Json.arr [])]

/-- Scene updated on 2024-01-01. -/
def sceneA : Json := Json.obj [("id", Json.str "1"), ("updated_at", Json.str "2024-01-01")]

/-- Scene updated on 2024-06-01. -/
def sceneB : Json := Json.obj [("id", Json.str "2"), ("updated_at", Json.str "2024-06-01")]

/-- A dispatcher oracle whose GraphQL server always answers with the
two-scene list. -/
def w5 : World :=
  { gql := fun _ _ =>
      GqlResult.ok (Json.obj [("data", Json.obj [("allScenes", Json.arr [sceneA, sceneB])])]),
    isfile := fun _ => false,
    transcribe := fun _ => none }

/-- A transcription-client oracle in which every collaborator succeeds. -/
def tvW : TvWorld :=
  { reachable := true, tmpName := "/tmp/a.wav", ffmpeg := FfOutcome.ok,
    upload := Except.ok "1\n00:00:00,000 --> 00:00:01,000\nhi\n", writeOk := true }

/-- A task descriptor carrying both a task name and an args mode. -/
def c9Input : List (String × Json) :=
  [("task", Json.obj [("name", Json.str "transcribe_last_scene")]),
   ("args", Json.obj [("mode", Json.str "transcribe_scene_task")])]

/-! ## Helper lemmas -/

/-- A value found by `lookupFs` that contains `s` makes the whole object
contain `s` one level up. -/
theorem containsStrDepth_of_lookup {fs : List (String × Json)} {k : String} {v : Json}
    {s : String} {d : Nat} (hl : lookupFs fs k = some v)
    (hc : containsStrDepth d v s = true) :
    containsStrDepth (d + 1) (Json.obj fs) s = true := by
  induction fs with
  | nil => simp [lookupFs] at hl
  | cons kv rest ih =>
    obtain ⟨k', v'⟩ := kv
    by_cases hk : (k' == k) = true
    · rw [lookupFs, if_pos hk] at hl
      obtain rfl : v' = v := by injection hl
      simp only [containsStrDepth, List.any_cons, Bool.or_eq_true]
      exact Or.inl hc
    · rw [lookupFs, if_neg hk] at hl
      have hrest := ih hl
      simp only [containsStrDepth] at hrest
      simp only [containsStrDepth, List.any_cons, Bool.or_eq_true]
      exact Or.inr hrest

/-- A string found by `firstStr` is contained in the object. -/
theorem containsStrDepth_of_firstStr {fs : List (String × Json)} {ks : List String}
    {s : String} {d : Nat} (h : firstStr fs ks = some s) :
    containsStrDepth (d + 2) (Json.obj fs) s = true := by
  induction ks with
  | nil => simp [firstStr] at h
  | cons k ks ih =>
    rcases hl : lookupFs fs k with _ | v
    · rw [firstStr, hl] at h
      exact ih h
    · rcases v with _ | b | n | t | xs | os <;> rw [firstStr, hl] at h
      · exact ih h
      · exact ih h
      · exact ih h
      · obtain rfl : t = s := by injection h
        exact containsStrDepth_of_lookup (d := d + 1) hl (by simp [containsStrDepth])
      · exact ih h
      · exact ih h

/-! ## Claim theorems -/

/-- Claim C1, counterexample: on a response carrying both `output.text`
and a top-level `text`, the code returns the nested value while the
claimed top-level-first order would return the top-level one, so the
extraction does not check the direct top level first. -/
theorem c1_extract_order_counterexample :
    extractTextFromResponse c1Input = some "a" ∧
    extractTextSpecOrder c1Input = some "b" ∧
    extractTextFromResponse c1Input ≠ extractTextSpecOrder c1Input := by
  refine ⟨rfl, rfl, ?_⟩
  intro h
  simp only [c1Input] at h
  exact absurd h (by decide)

/-- Claim C1, amended: the extraction checks the nested `output` field
first (a direct string, else an object tried with the
text/transcript/transcription order) and then the direct top level with
the same order; the three quoted examples hold. -/
theorem c1_extract_amended :
    (∀ j, extractTextFromResponse j = extractTextAmendedSpec j) ∧
    extractTextFromResponse (Json.obj [("output", Json.obj [("text", Json.str "hello")])]) =
      some "hello" ∧
    extractTextFromResponse (Json.obj [("text", Json.str "hi")]) = some "hi" ∧
    extractTextFromResponse (Json.obj []) = none := by
  refine ⟨?_, rfl, rfl, rfl⟩
  intro j
  cases j with
  | obj fs =>
    show extractTextFromResponse (Json.obj fs) = extractTextAmendedSpec (Json.obj fs)
    rw [extractTextFromResponse, extractTextAmendedSpec, outputPart]
    rcases hl : lookupFs fs "output" with _ | v
    · rfl
    · rcases v with _ | b | n | t | xs | os
      · rfl
      · rfl
      · rfl
      · rfl
      · rfl
      · rcases hf : firstStr os keyOrder with _ | s <;> rfl
  | null => rfl
  | bool b => rfl
  | num n => rfl
  | str s => rfl
  | arr xs => rfl

/-- Claim C10: the extraction is total over arbitrary parsed JSON — it
returns none for null and every non-dict value, and whenever it returns
a string, that string occurs as a value inside the input object (at the
top level or inside `output`). -/
theorem c10_extract_total (j : Json) :
    (j.isDict = false → extractTextFromResponse j = none) ∧
    (∀ s, extractTextFromResponse j = some s → containsStrDepth 3 j s = true) := by
  constructor
  · intro hd
    cases j <;> simp_all [Json.isDict, extractTextFromResponse]
  · intro s hs
    cases j with
    | obj fs =>
      revert hs
      rw [extractTextFromResponse]
      rcases hl : lookupFs fs "output" with _ | v
      · intro hs
        exact containsStrDepth_of_firstStr (d := 1) hs
      · rcases v with _ | b | n | t | xs | os
        · intro hs; exact containsStrDepth_of_firstStr (d := 1) hs
        · intro hs; exact containsStrDepth_of_firstStr (d := 1) hs
        · intro hs; exact containsStrDepth_of_firstStr (d := 1) hs
        · intro hs
          obtain rfl : t = s := by injection hs
          exact containsStrDepth_of_lookup (d := 2) hl (by simp [containsStrDepth])
        · intro hs; exact containsStrDepth_of_firstStr (d := 1) hs
        · show (match firstStr os keyOrder with
              | some s => some s
              | none => firstStr fs keyOrder) = some s →
            containsStrDepth 3 (Json.obj fs) s = true
          rcases hf : firstStr os keyOrder with _ | s'
          · intro hs; exact containsStrDepth_of_firstStr (d := 1) hs
          · intro hs
            obtain rfl : s' = s := by injection hs
            exact containsStrDepth_of_lookup (d := 2) hl
              (containsStrDepth_of_firstStr (d := 0) hf)
    | null => simp [extractTextFromResponse] at hs
    | bool b => simp [extractTextFromResponse] at hs
    | num n => simp [extractTextFromResponse] at hs
    | str t => simp [extractTextFromResponse] at hs
    | arr xs => simp [extractTextFromResponse] at hs

/-- Claim C10, witness: concrete evaluations through the theorem. -/
theorem c10_extract_total_witness :
    extractTextFromResponse Json.null = none ∧
    extractTextFromResponse (Json.str "x") = none ∧
    containsStrDepth 3 (Json.obj [("text", Json.str "hi")]) "hi" = true :=
  ⟨(c10_extract_total Json.null).1 rfl,
   (c10_extract_total (Json.str "x")).1 rfl,
   (c10_extract_total (Json.obj [("text", Json.str "hi")])).2 "hi" rfl⟩

/-- Claim C2, counterexample: with the name `x` set both in the UI
settings and in `args` (and in the constructor defaults), `Setting`
resolves to the UI value, not the args value — an explicit args value
does not win over a UI-settings value. -/
theorem c2_precedence_counterexample :
    Setting c2Input c2Ctor "x" Json.null = Json.str "ui" ∧
    Json.str "ui" ≠ Json.str "argsv" := by
  refine ⟨rfl, ?_⟩
  intro h
  have : "ui" = "argsv" := by injection h
  exact absurd this (by decide)

/-- Claim C2, amended: in `Setting`, a UI-settings value of a name wins
over an args value of the same name, an args value wins over a
constructor-supplied default, and with no other source the constructor
default (or the call-site default) is used; only the `serverUrl`
resolution checks the explicit args value first. -/
theorem c2_precedence_amended :
    (∀ inp ctor name dflt sfs v, lookupFs inp "settings" = some (Json.obj sfs) →
       lookupFs sfs name = some v → Setting inp ctor name dflt = v) ∧
    (∀ inp ctor name dflt sfs afs v, lookupFs inp "settings" = some (Json.obj sfs) →
       lookupFs sfs name = none → lookupFs inp "pluginSettings" = none →
       lookupFs inp "args" = some (Json.obj afs) → lookupFs afs name = some v →
       Setting inp ctor name dflt = v) ∧
    (∀ inp ctor name dflt sfs afs, lookupFs inp "settings" = some (Json.obj sfs) →
       lookupFs sfs name = none → lookupFs inp "pluginSettings" = none →
       lookupFs inp "args" = some (Json.obj afs) → lookupFs afs name = none →
       Setting inp ctor name dflt = (lookupFs ctor name).getD dflt) ∧
    (∀ inp fetched env afs s, lookupFs inp "args" = some (Json.obj afs) →
       lookupFs afs "serverUrl" = some (Json.str s) → pyStrip s ≠ "" →
       resolveServerUrl inp fetched env = pyStrip s) := by
  refine ⟨?_, ?_, ?_, ?_⟩
  · intro inp ctor name dflt sfs v h1 h2
    simp [Setting, h1, h2]
  · intro inp ctor name dflt sfs afs v h1 h2 h3 h4 h5
    simp [Setting, settingAlt, settingArgs, lookupFs, h1, h2, h3, h4, h5]
  · intro inp ctor name dflt sfs afs h1 h2 h3 h4 h5
    simp [Setting, settingAlt, settingArgs, lookupFs, h1, h2, h3, h4, h5]
  · intro inp fetched env afs s h1 h2 h3
    have hb : (pyStrip s != "") = true := by simpa [bne_iff_ne] using h3
    simp [resolveServerUrl, h1, h2, hb]

/-- Claim C2, witness: the amended precedence at concrete inputs. -/
theorem c2_precedence_amended_witness :
    Setting c2Input c2Ctor "x" Json.null = Json.str "ui" ∧
    Setting [("settings", Json.obj []), ("args", Json.obj [("x", Json.str "argsv")])]
      c2Ctor "x" Json.null = Json.str "argsv" ∧
    Setting [("settings", Json.obj []), ("args", Json.obj [])]
      c2Ctor "x" Json.null = Json.str "ctor" ∧
    resolveServerUrl [("args", Json.obj [("serverUrl", Json.str " http://h:1/i ")])]
      none none = pyStrip " http://h:1/i " ∧
    pyStrip " http://h:1/i " = "http://h:1/i" :=
  ⟨c2_precedence_amended.1 c2Input c2Ctor "x" Json.null
     [("x", Json.str "ui")] (Json.str "ui") rfl rfl,
   c2_precedence_amended.2.1 _ c2Ctor "x" Json.null [] [("x", Json.str "argsv")]
     (Json.str "argsv") rfl rfl rfl rfl rfl,
   c2_precedence_amended.2.2.1 _ c2Ctor "x" Json.null [] [] rfl rfl rfl rfl rfl,
   c2_precedence_amended.2.2.2
     [("args", Json.obj [("serverUrl", Json.str " http://h:1/i ")])] none none
     [("serverUrl", Json.str " http://h:1/i ")] " http://h:1/i " rfl rfl (by decide),
   by decide⟩

/-- Claim C8: for a video path that does not exist, `transcribe_video`
raises FileNotFoundError before any other work — no probe, no decoder
run, no upload, no file change, an empty effect trace. -/
theorem c8_notfound_first (w : TvWorld) (fs : List String) (videoPath : String)
    (translate : Bool) (serverUrl : String) (h : videoPath ∉ fs) :
    transcribeVideo w fs videoPath translate serverUrl =
      (Except.error (TvError.fileNotFound ("Video file not found at \x27" ++ videoPath ++ "\x27")),
       fs, []) := by
  rw [transcribeVideo, if_neg h]

/-- Claim C8, witness: the missing-file fast failure at a concrete
input. -/
theorem c8_notfound_first_witness :
    "/missing.mp4" ∉ (["/v.mp4"] : List String) ∧
    transcribeVideo tvW ["/v.mp4"] "/missing.mp4" false "http://127.0.0.1:9191/inference" =
      (Except.error (TvError.fileNotFound ("Video file not found at \x27/missing.mp4\x27")),
       ["/v.mp4"], []) :=
  ⟨by decide,
   c8_notfound_first tvW ["/v.mp4"] "/missing.mp4" false
     "http://127.0.0.1:9191/inference" (by decide)⟩

/-- Claim C3: once `transcribe_video` passes the existence check and the
reachability probe, the temporary audio file it creates is gone from the
file set on every exit path — ffmpeg missing or failing, upload failing,
SRT write failing, or full success. -/
theorem c3_tmp_always_removed (w : TvWorld) (fs : List String) (videoPath : String)
    (translate : Bool) (serverUrl : String)
    (hex : videoPath ∈ fs) (hre : w.reachable = true)
    (hfresh : w.tmpName ∉ fs)
    (hsrt : w.tmpName ≠ splitextRoot videoPath ++ ".srt") :
    w.tmpName ∉ (transcribeVideo w fs videoPath translate serverUrl).2.1 := by
  rw [transcribeVideo, if_pos hex, if_pos hre]
  have herase : (w.tmpName :: fs).erase w.tmpName = fs := List.erase_cons_head _ _
  cases hf : w.ffmpeg with
  | notFound => simpa [herase] using hfresh
  | fail stderr => simpa [herase] using hfresh
  | ok =>
    cases hu : w.upload with
    | error msg => simpa [herase] using hfresh
    | ok resp =>
      cases hw : w.writeOk with
      | true => simp [herase, hfresh, hsrt]
      | false => simpa [herase] using hfresh

/-- Claim C3, witness: the fully successful run at a concrete input
leaves the temporary WAV absent (only the video and the new SRT). -/
theorem c3_tmp_always_removed_witness :
    ("/v.mp4" ∈ (["/v.mp4"] : List String)) ∧ tvW.reachable = true ∧
    tvW.tmpName ∉ (["/v.mp4"] : List String) ∧
    tvW.tmpName ≠ splitextRoot "/v.mp4" ++ ".srt" ∧
    tvW.tmpName ∉ (transcribeVideo tvW ["/v.mp4"] "/v.mp4" false
      "http://127.0.0.1:9191/inference").2.1 :=
  ⟨by decide, rfl, by decide, by decide,
   c3_tmp_always_removed tvW ["/v.mp4"] "/v.mp4" false
     "http://127.0.0.1:9191/inference" (by decide) rfl (by decide) (by decide)⟩

/-- Claim C9: when the task descriptor carries both a non-empty
`task.name` and a non-empty `args.mode`, the detected task name is
`task.name` — it takes precedence over `args.mode`. -/
theorem c9_task_name_precedence (inp tfs afs : List (String × Json)) (n m : String)
    (ht : lookupFs inp "task" = some (Json.obj tfs))
    (hn : lookupFs tfs "name" = some (Json.str n)) (hne : n ≠ "")
    (_ha : lookupFs inp "args" = some (Json.obj afs))
    (_hm : lookupFs afs "mode" = some (Json.str m)) (_hmne : m ≠ "") :
    pluginTaskName inp = Json.str n := by
  have hb : (n != "") = true := by simpa [bne_iff_ne] using hne
  simp [pluginTaskName, ht, hn, truthy, hb]

/-- Claim C9, witness: the precedence at a concrete descriptor. -/
theorem c9_task_name_precedence_witness :
    pluginTaskName c9Input = Json.str "transcribe_last_scene" :=
  c9_task_name_precedence c9Input
    [("name", Json.str "transcribe_last_scene")]
    [("mode", Json.str "transcribe_scene_task")]
    "transcribe_last_scene" "transcribe_scene_task"
    rfl rfl (by decide) rfl rfl (by decide)

/-- Claim C6: for every failure mode of the underlying GraphQL call —
HTTP error, transport error, empty body, malformed JSON, another raised
error, or a GraphQL-errors response — `get_all_scenes` returns the
empty list in the expected shape and never raises. -/
theorem c6_all_scenes_failure (w : World)
    (h : gqlFailure (w.gql allScenesQuery (Json.obj [])) = true) :
    (getAllScenes w).2 = Except.ok (Json.obj [("allScenes", Json.arr [])]) := by
  cases hg : w.gql allScenesQuery (Json.obj []) with
  | httpError code body => simp [getAllScenes, graphqlCall, hg]
  | urlError msg => simp [getAllScenes, graphqlCall, hg]
  | badJson => simp [getAllScenes, graphqlCall, hg]
  | otherError msg => simp [getAllScenes, graphqlCall, hg]
  | emptyBody => simp [getAllScenes, graphqlCall, hg]
  | ok j =>
    rw [hg, gqlFailure] at h
    simp [getAllScenes, graphqlCall, hg, h]

/-- Claim C6, witness: the transport-failure world yields the empty
shape. -/
theorem c6_all_scenes_failure_witness :
    (getAllScenes w0).2 = Except.ok (Json.obj [("allScenes", Json.arr [])]) :=
  c6_all_scenes_failure w0 rfl

/-- Claim C7: every exception raised inside the dispatch try-block or
inside the scene sub-procedures is caught by the enclosing handler,
which appends exactly one error log line and returns normally, so
nothing propagates past the dispatcher. -/
theorem c7_exceptions_contained (w : World) (inp : List (String × Json))
    (su : String) (tj dj sceneId : Json) :
    (∀ e, (transcribeSceneBody w su tj dj sceneId).2 = Except.error e →
       transcribeScene w su tj dj sceneId =
         (transcribeSceneBody w su tj dj sceneId).1 ++ [Effect.log 'E' (sceneExnMsg e)]) ∧
    (∀ e, (transcribeLastSceneBody w su tj dj).2 = Except.error e →
       transcribeLastScene w su tj dj =
         (transcribeLastSceneBody w su tj dj).1 ++ [Effect.log 'E' (lastSceneExnMsg e)]) ∧
    (∀ e, (transcribeSceneTaskBody w inp su tj dj).2 = Except.error e →
       transcribeSceneTask w inp su tj dj =
         (transcribeSceneTaskBody w inp su tj dj).1 ++ [Effect.log 'E' (sceneTaskExnMsg e)]) ∧
    (∀ e, (dispatchTry w inp su tj dj).2 = Except.error e →
       dispatchMain w inp su tj dj =
         (dispatchTry w inp su tj dj).1 ++ [Effect.log 'E' (mainExnMsg e)]) ∧
    (∀ r, (dispatchTry w inp su tj dj).2 = Except.ok r →
       dispatchMain w inp su tj dj = (dispatchTry w inp su tj dj).1) := by
  refine ⟨?_, ?_, ?_, ?_, ?_⟩
  · intro e he
    rcases hb : transcribeSceneBody w su tj dj sceneId with ⟨t, r⟩
    rw [hb] at he
    simp only at he
    subst he
    rw [transcribeScene, hb]
  · intro e he
    rcases hb : transcribeLastSceneBody w su tj dj with ⟨t, r⟩
    rw [hb] at he
    simp only at he
    subst he
    rw [transcribeLastScene, hb]
  · intro e he
    rcases hb : transcribeSceneTaskBody w inp su tj dj with ⟨t, r⟩
    rw [hb] at he
    simp only at he
    subst he
    rw [transcribeSceneTask, hb]
  · intro e he
    rcases hb : dispatchTry w inp su tj dj with ⟨t, r⟩
    rw [hb] at he
    simp only at he
    subst he
    rw [dispatchMain, hb]
  · intro r hr
    rcases hb : dispatchTry w inp su tj dj with ⟨t, r2⟩
    rw [hb] at hr
    simp only at hr
    subst hr
    rw [dispatchMain, hb]

/-- Claim C7, witness: a raising mode check at a concrete descriptor is
caught at the dispatcher boundary and turned into one error log line. -/
theorem c7_exceptions_contained_witness :
    (dispatchTry w0 c4Input "http://e/i" Json.null Json.null).2 =
      Except.error (Exn.attrError "get") ∧
    dispatchMain w0 c4Input "http://e/i" Json.null Json.null =
      (dispatchTry w0 c4Input "http://e/i" Json.null Json.null).1 ++
        [Effect.log 'E' (mainExnMsg (Exn.attrError "get"))] :=
  ⟨rfl,
   (c7_exceptions_contained w0 c4Input "http://e/i" Json.null Json.null Json.null).2.2.2.1
     (Exn.attrError "get") rfl⟩

/-- The `max(..., key=...)` iteration over scenes whose keys are all
strings returns an element (or the seed) whose key is maximal; ties keep
the earlier element. -/
theorem pyMaxGo_max (xs : List Json) :
    ∀ (cur : Json) (cu : String), updKey cur = Except.ok (Json.str cu) →
    (∀ s ∈ xs, ∃ u, updKey s = Except.ok (Json.str u)) →
    ∃ latest lu, pyMaxGo cur (Json.str cu) xs = Except.ok latest ∧
      (latest = cur ∨ latest ∈ xs) ∧ updKey latest = Except.ok (Json.str lu) ∧
      cu ≤ lu ∧ (∀ s ∈ xs, ∀ u, updKey s = Except.ok (Json.str u) → u ≤ lu) := by
  induction xs with
  | nil =>
    intro cur cu hcur _
    exact ⟨cur, cu, rfl, Or.inl rfl, hcur, le_refl cu, by simp⟩
  | cons s rest ih =>
    intro cur cu hcur hall
    obtain ⟨u, hu⟩ := hall s (List.mem_cons_self s rest)
    have hrest : ∀ t ∈ rest, ∃ v, updKey t = Except.ok (Json.str v) :=
      fun t ht => hall t (List.mem_cons_of_mem s ht)
    by_cases hlt : cu < u
    · obtain ⟨latest, lu, hgo, hmem, hkey, hle, hmax⟩ := ih s u hu hrest
      have hd : pyLt (Json.str cu) (Json.str u) = Except.ok true := by
        rw [pyLt, decide_eq_true (String.lt_iff_toList_lt.mp hlt)]
      refine ⟨latest, lu, ?_, ?_, hkey, le_trans (le_of_lt hlt) hle, ?_⟩
      · simp [pyMaxGo, hu, hd, hgo]
      · rcases hmem with rfl | h
        · exact Or.inr (List.mem_cons_self _ _)
        · exact Or.inr (List.mem_cons_of_mem _ h)
      · intro t ht v hv
        rcases List.mem_cons.mp ht with rfl | ht'
        · rw [hu] at hv
          obtain rfl : u = v := by
            have := hv
            injection this with h1
            injection h1
          exact hle
        · exact hmax t ht' v hv
    · obtain ⟨latest, lu, hgo, hmem, hkey, hle, hmax⟩ := ih cur cu hcur hrest
      have hd : pyLt (Json.str cu) (Json.str u) = Except.ok false := by
        rw [pyLt, decide_eq_false (fun h => hlt (String.lt_iff_toList_lt.mpr h))]
      refine ⟨latest, lu, ?_, ?_, hkey, hle, ?_⟩
      · simp [pyMaxGo, hu, hd, hgo]
      · rcases hmem with rfl | h
        · exact Or.inl rfl
        · exact Or.inr (List.mem_cons_of_mem _ h)
      · intro t ht v hv
        rcases List.mem_cons.mp ht with rfl | ht'
        · rw [hu] at hv
          obtain rfl : u = v := by
            have := hv
            injection this with h1
            injection h1
          exact le_trans (not_lt.mp hlt) hle
        · exact hmax t ht' v hv

/-- Claim C5: for every non-empty scene list returned by the host,
`transcribe_last_scene` selects a scene whose `updated_at` is maximal
under string comparison and delegates to `transcribe_scene` on that
scene's id, its trace being exactly the allScenes query followed by the
delegated call. -/
theorem c5_last_scene_max (w : World) (su : String) (tj dj : Json) (xs : List Json)
    (hresp : w.gql allScenesQuery (Json.obj []) =
      GqlResult.ok (Json.obj [("data", Json.obj [("allScenes", Json.arr xs)])]))
    (hne : xs ≠ [])
    (hwf : ∀ s ∈ xs, ∃ i u, s = Json.obj [("id", i), ("updated_at", Json.str u)] ∧
      i ≠ Json.null) :
    ∃ latest i u, pyMaxBy xs = Except.ok latest ∧ latest ∈ xs ∧
      latest = Json.obj [("id", i), ("updated_at", Json.str u)] ∧
      (∀ s ∈ xs, ∀ v, updKey s = Except.ok (Json.str v) → v ≤ u) ∧
      transcribeLastScene w su tj dj =
        Effect.gqlPost allScenesQuery (Json.obj []) :: transcribeScene w su tj dj i := by
  have hkeys : ∀ s ∈ xs, ∃ v, updKey s = Except.ok (Json.str v) := by
    intro s hs
    obtain ⟨i, u, rfl, _⟩ := hwf s hs
    exact ⟨u, rfl⟩
  cases xs with
  | nil => exact absurd rfl hne
  | cons x0 rest =>
    obtain ⟨u0, hu0⟩ := hkeys x0 (List.mem_cons_self x0 rest)
    obtain ⟨latest, lu, hgo, hmem, hkey, hle, hmax⟩ :=
      pyMaxGo_max rest x0 u0 hu0 (fun t ht => hkeys t (List.mem_cons_of_mem x0 ht))
    have hmaxby : pyMaxBy (x0 :: rest) = Except.ok latest := by
      simp [pyMaxBy, hu0, hgo]
    have hmem' : latest ∈ x0 :: rest := by
      rcases hmem with rfl | h
      · exact List.mem_cons_self _ _
      · exact List.mem_cons_of_mem _ h
    obtain ⟨li, lul, hlshape, hlnn⟩ := hwf latest hmem'
    have hlul : lul = lu := by
      rw [hlshape] at hkey
      have : Except.ok (Json.str lul) = (Except.ok (Json.str lu) : Except Exn Json) := hkey
      injection this with h1
      injection h1
    subst hlul
    have hni : li.isNull = false := by
      cases li
      · exact absurd rfl hlnn
      all_goals rfl
    have hgc : graphqlCall w allScenesQuery (Json.obj []) =
        ([Effect.gqlPost allScenesQuery (Json.obj [])],
         some (Json.obj [("data", Json.obj [("allScenes", Json.arr (x0 :: rest))])])) := by
      rw [graphqlCall, hresp]
      rfl
    have hgas : getAllScenes w =
        ([Effect.gqlPost allScenesQuery (Json.obj [])],
         Except.ok (Json.obj [("allScenes", Json.arr (x0 :: rest))])) := by
      rw [getAllScenes, hgc]
      rfl
    have hid : pyGetD latest "id" Json.null = Except.ok li := by
      rw [hlshape]
      rfl
    have hbody : transcribeLastSceneBody w su tj dj =
        (Effect.gqlPost allScenesQuery (Json.obj []) :: transcribeScene w su tj dj li,
         Except.ok ()) := by
      rw [transcribeLastSceneBody, hgas]
      simp [eseq, elift, pySubscr, lookupFs, truthy, hmaxby, hid, hni]
    refine ⟨latest, li, lul, hmaxby, hmem', hlshape, ?_, ?_⟩
    · intro t ht v hv
      rcases List.mem_cons.mp ht with rfl | ht'
      · rw [hu0] at hv
        obtain rfl : u0 = v := by
          injection hv with h1
          injection h1
        exact hle
      · exact hmax t ht' v hv
    · rw [transcribeLastScene, hbody]

/-- Claim C5, witness: with scenes updated on 2024-01-01 and 2024-06-01
the dispatcher selects the second and delegates on its id. -/
theorem c5_last_scene_max_witness :
    pyMaxBy [sceneA, sceneB] = Except.ok sceneB ∧
    (∃ latest i u, pyMaxBy [sceneA, sceneB] = Except.ok latest ∧
      latest ∈ [sceneA, sceneB] ∧
      latest = Json.obj [("id", i), ("updated_at", Json.str u)] ∧
      (∀ s ∈ [sceneA, sceneB], ∀ v, updKey s = Except.ok (Json.str v) → v ≤ u) ∧
      transcribeLastScene w5 "http://e/i" Json.null Json.null =
        Effect.gqlPost allScenesQuery (Json.obj []) ::
          transcribeScene w5 "http://e/i" Json.null Json.null i) :=
  ⟨rfl,
   c5_last_scene_max w5 "http://e/i" Json.null Json.null [sceneA, sceneB] rfl
     (by simp)
     (by
       intro s hs
       rcases List.mem_cons.mp hs with rfl | hs'
       · exact ⟨Json.str "1", "2024-01-01", rfl, by simp⟩
       · rcases List.mem_cons.mp hs' with rfl | hs''
         · exact ⟨Json.str "2", "2024-06-01", rfl, by simp⟩
         · simp at hs'')⟩
